import Mathlib

/-!
Shallow embedding of the SEO analyzer content script (content.js).

The script extracts on-page SEO signals, scores each with a fixed-threshold
pure function, sums the points into a clamped total, and synthesizes a
one-line summary.  Every definition below is a direct translation of the
corresponding JavaScript function; DOM access is modelled by passing the
already-read document data (script block texts, heading counts, image stats,
normalized strings) as explicit arguments.
-/

namespace SeoAnalyzer

/-- Result record for one scored signal: `{ points, status, badge, detail }`.
`status` is one of the strings "good", "warn", "bad", exactly as in the source. -/
structure SignalResult where
  points : Nat
  status : String
  badge : String
  detail : String
  deriving Repr, DecidableEq

/-- `clamp(n, min, max) = Math.max(min, Math.min(max, n))`. -/
def clamp (n lo hi : Nat) : Nat := max lo (min hi n)

/-- Helper for `normalizeSpace`: collapse each maximal whitespace run into a
single space, one left-to-right pass.  `prevWs` records whether the previous
character belonged to a whitespace run (so the rest of the run is dropped).
This models the JS `replace(/\s+/g, ' ')`; the JS `\s` class is modelled by
`Char.isWhitespace`. -/
def squeezeWs : Bool → List Char → List Char
  | _, [] => []
  | prevWs, c :: cs =>
    if c.isWhitespace then
      if prevWs then squeezeWs true cs else ' ' :: squeezeWs true cs
    else
      c :: squeezeWs false cs

/-- Drop leading and trailing whitespace, modelling `String.prototype.trim`. -/
def trimWs (l : List Char) : List Char :=
  ((l.dropWhile Char.isWhitespace).reverse.dropWhile Char.isWhitespace).reverse

/-- `normalizeSpace(text) = (text || '').replace(/\s+/g, ' ').trim()`. -/
def normalizeSpace (text : String) : String :=
  String.mk (trimWs (squeezeWs false text.toList))

/-- `String.prototype.toLowerCase`, modelled characterwise. -/
def strToLower (s : String) : String := String.mk (s.toList.map Char.toLower)

/-- `s.startsWith(p)`, modelled on the character lists. -/
def strStartsWith (s p : String) : Bool := decide (p.toList <+: s.toList)

/-- `s.includes(sub)` (substring containment), modelled on the character lists. -/
def strIncludes (s sub : String) : Bool := decide (sub.toList <:+: s.toList)

/-- Structured-data statistics returned by `getJsonLdBlocks`. -/
structure JsonLdStats where
  count : Nat
  parsedCount : Nat
  parseErrors : Nat
  deriving Repr, DecidableEq

/-- One iteration of the `getJsonLdBlocks` loop over a script node's text.
`JSON.parse` is a platform facility, not repository code, so whether a
normalized non-empty text parses is modelled by the oracle `parseOk`.
`acc` is `(parsedCount so far, parseErrors so far)`: an empty-after-
normalization text is skipped (`continue`), otherwise a successful parse
pushes onto `parsed` and a failure increments `parseErrors`. -/
def jsonLdStep (parseOk : String → Bool) (acc : Nat × Nat) (node : String) : Nat × Nat :=
  let raw := normalizeSpace node
  if raw = "" then acc
  else if parseOk raw then (acc.1 + 1, acc.2) else (acc.1, acc.2 + 1)

/-- `getJsonLdBlocks()`: `nodes` is the list of texts of the
`script[type="application/ld+json"]` elements, in document order.
`count` is `nodes.length`, i.e. the number of script elements. -/
def getJsonLdBlocks (parseOk : String → Bool) (nodes : List String) : JsonLdStats :=
  let r := nodes.foldl (jsonLdStep parseOk) (0, 0)
  { count := nodes.length, parsedCount := r.1, parseErrors := r.2 }

/-- Heading counts per level, the record built by `getHeadingsCount()`. -/
structure HeadingCounts where
  h1 : Nat
  h2 : Nat
  h3 : Nat
  h4 : Nat
  h5 : Nat
  h6 : Nat
  deriving Repr, DecidableEq

/-- `Object.values(counts).reduce((a, b) => a + b, 0)` in `scoreHeadings`. -/
def headingsTotal (counts : HeadingCounts) : Nat :=
  counts.h1 + counts.h2 + counts.h3 + counts.h4 + counts.h5 + counts.h6

/-- Image alt statistics, the record built by `getImageAltStats()`. -/
structure ImageStats where
  total : Nat
  withAlt : Nat
  withoutAlt : Nat
  deriving Repr, DecidableEq

/-- `scoreTitle(title)`; `title` is already whitespace-normalized. -/
def scoreTitle (title : String) : SignalResult :=
  let len := title.length
  if title = "" then
    { points := 0, status := "bad", badge := "Missing", detail := "No <title> found." }
  else if 10 ≤ len ∧ len ≤ 60 then
    { points := 20, status := "good", badge := s!"{len} chars",
      detail := s!"Present and within recommended length ({len} chars)." }
  else
    { points := 12, status := "warn", badge := s!"{len} chars",
      detail := if len < 10 then s!"Present but very short ({len} chars)."
                else s!"Present but long ({len} chars)." }

/-- `scoreMetaDescription(description)`. -/
def scoreMetaDescription (description : String) : SignalResult :=
  let len := description.length
  if description = "" then
    { points := 0, status := "bad", badge := "Missing", detail := "No meta description found." }
  else if 50 ≤ len ∧ len ≤ 160 then
    { points := 20, status := "good", badge := s!"{len} chars",
      detail := s!"Present and within recommended length ({len} chars)." }
  else
    { points := 12, status := "warn", badge := s!"{len} chars",
      detail := if len < 50 then s!"Present but short ({len} chars)."
                else s!"Present but long ({len} chars)." }

/-- `scoreMetaKeywords(keywords)`. -/
def scoreMetaKeywords (keywords : String) : SignalResult :=
  if keywords = "" then
    { points := 0, status := "warn", badge := "Not set",
      detail := "Meta keywords are optional and often ignored." }
  else
    let len := keywords.length
    { points := 3, status := "good", badge := "Present",
      detail := s!"Present ({len} chars). Note: often ignored by search engines." }

/-- `scoreHeadings(counts)`. -/
def scoreHeadings (counts : HeadingCounts) : SignalResult :=
  let h1 := counts.h1
  let total := headingsTotal counts
  if total = 0 then
    { points := 0, status := "bad", badge := "None", detail := "No headings found (H1–H6)." }
  else if h1 = 1 then
    { points := 15, status := "good", badge := s!"H1×{h1}",
      detail := s!"Headings present. H1 count is ideal (1). Total headings: {total}." }
  else if h1 = 0 then
    { points := 7, status := "warn", badge := "No H1",
      detail := s!"Headings found but missing H1. Total headings: {total}." }
  else
    { points := 7, status := "warn", badge := s!"H1×{h1}",
      detail := s!"Multiple H1s found ({h1}). Total headings: {total}." }

/-- `scoreImages(images)`.  The source computes `ratio = withAlt / total` in
real (IEEE) arithmetic and compares it with `0.9` and `0.6`; over the exact
rationals these comparisons are precisely the cross-multiplied comparisons
used here, and `pct = Math.round(ratio * 100) = ⌊(200*withAlt + total) / (2*total)⌋`
(round half up). -/
def scoreImages (images : ImageStats) : SignalResult :=
  let total := images.total
  let withAlt := images.withAlt
  let withoutAlt := images.withoutAlt
  if total = 0 then
    { points := 6, status := "warn", badge := "No images",
      detail := "No images detected on the page." }
  else
    let pct := (200 * withAlt + total) / (2 * total)
    if 9 * total ≤ 10 * withAlt then
      { points := 10, status := "good", badge := s!"{pct}%",
        detail := s!"{withAlt}/{total} images have alt text ({pct}%)." }
    else if 6 * total ≤ 10 * withAlt then
      { points := 6, status := "warn", badge := s!"{pct}%",
        detail := s!"{withAlt}/{total} images have alt text ({pct}%). {withoutAlt} missing." }
    else
      { points := 2, status := "bad", badge := s!"{pct}%",
        detail := s!"{withAlt}/{total} images have alt text ({pct}%). {withoutAlt} missing." }

/-- `scoreCanonical(href)`.  The regex `/^https?:\/\//i` is a case-insensitive
test for the literal leading `http://` or `https://`. -/
def scoreCanonical (href : String) : SignalResult :=
  if href = "" then
    { points := 0, status := "warn", badge := "Missing", detail := "No canonical link tag found." }
  else
    let lower := strToLower href
    let looksLikeUrl :=
      strStartsWith lower "http://" || strStartsWith lower "https://" || strStartsWith href "/"
    if !looksLikeUrl then
      { points := 3, status := "warn", badge := "Present",
        detail := s!"Canonical present but looks unusual: {href}" }
    else
      { points := 5, status := "good", badge := "Present",
        detail := s!"Canonical present: {href}" }

/-- `scoreRobots(robots)`. -/
def scoreRobots (robots : String) : SignalResult :=
  if robots = "" then
    { points := 6, status := "good", badge := "Not set",
      detail := "No robots meta tag found (often fine)." }
  else
    let value := strToLower robots
    let blocksIndexing := strIncludes value "noindex" || strIncludes value "nofollow"
    if blocksIndexing then
      { points := 0, status := "bad", badge := "Blocking",
        detail := s!"Robots meta may prevent indexing: \"{robots}\"" }
    else
      { points := 6, status := "good", badge := "OK", detail := s!"Robots meta: \"{robots}\"" }

/-- `scoreStructuredData(jsonld)`. -/
def scoreStructuredData (jsonld : JsonLdStats) : SignalResult :=
  let count := jsonld.count
  let parsedCount := jsonld.parsedCount
  let parseErrors := jsonld.parseErrors
  if count = 0 then
    { points := 0, status := "warn", badge := "None",
      detail := "No JSON-LD structured data found." }
  else if 0 < parsedCount ∧ parseErrors = 0 then
    { points := 10, status := "good",
      badge := s!"{parsedCount} block" ++ (if parsedCount = 1 then "" else "s"),
      detail := s!"Found {count} JSON-LD script tag(s); {parsedCount} parsed successfully." }
  else
    { points := 5, status := "warn", badge := "Partial",
      detail :=
        s!"Found {count} JSON-LD script tag(s); {parsedCount} parsed; {parseErrors} parse error(s)." }

/-- `scoreWordCount(words)`. -/
def scoreWordCount (words : Nat) : SignalResult :=
  if words = 0 then
    { points := 0, status := "bad", badge := "0", detail := "No body text detected." }
  else if 300 ≤ words then
    { points := 10, status := "good", badge := s!"{words}",
      detail := s!"Good amount of content ({words} words)." }
  else if 150 ≤ words then
    { points := 6, status := "warn", badge := s!"{words}",
      detail := s!"Some content ({words} words); consider adding more." }
  else
    { points := 2, status := "warn", badge := s!"{words}",
      detail := s!"Thin content ({words} words)." }

/-- The nine scored items, keyed by signal name as in the payload's `items`. -/
structure Items where
  title : SignalResult
  metaDescription : SignalResult
  metaKeywords : SignalResult
  headings : SignalResult
  images : SignalResult
  canonical : SignalResult
  robots : SignalResult
  structuredData : SignalResult
  wordCount : SignalResult
  deriving Repr, DecidableEq

/-- `Array.prototype.join(sep)`. -/
def joinSep (sep : String) : List String → String
  | [] => ""
  | [x] => x
  | x :: xs => x ++ sep ++ joinSep sep xs

/-- The `push` helper in `buildSummary`: append the label iff status is "good". -/
def pushIfGood (label status : String) : List String :=
  if status = "good" then [label] else []

/-- `buildSummary(items, totalScore)`. -/
def buildSummary (items : Items) (totalScore : Nat) : String :=
  let positives :=
    pushIfGood "title" items.title.status ++
    pushIfGood "meta description" items.metaDescription.status ++
    pushIfGood "canonical" items.canonical.status ++
    pushIfGood "structured data" items.structuredData.status
  let issues :=
    (if items.headings.status ≠ "good" then ["headings"] else []) ++
    (if items.images.status ≠ "good" then ["image alts"] else []) ++
    (if items.robots.status = "bad" then ["robots (noindex/nofollow)"] else []) ++
    (if items.wordCount.status ≠ "good" then ["content length"] else [])
  let parts :=
    [s!"SEO score: {totalScore}/100."] ++
    (if positives = [] then [] else ["Strong: " ++ joinSep ", " positives ++ "."]) ++
    (if issues = [] then [] else ["Check: " ++ joinSep ", " issues ++ "."])
  joinSep " " parts

/-- The raw extracted signals consumed by `analyzeSeo` (its `raw` field).
String signals are whitespace-normalized by the extractors
(`normalizeSpace(document.title)`, `getMetaContentByName`, `getCanonicalHref`). -/
structure ExtractedSignals where
  title : String
  metaDescription : String
  metaKeywords : String
  headings : HeadingCounts
  images : ImageStats
  canonical : String
  robots : String
  jsonld : JsonLdStats
  wordCount : Nat
  deriving Repr, DecidableEq

/-- The `score` sub-record of the payload. -/
structure ScoreTotal where
  total : Nat
  deriving Repr, DecidableEq

/-- The payload assembled by `analyzeSeo` (`page: { url }` flattened to `pageUrl`). -/
structure Payload where
  generatedAt : Nat
  pageUrl : String
  score : ScoreTotal
  raw : ExtractedSignals
  items : Items
  summary : String
  deriving Repr, DecidableEq

/-- The sum of the nine per-signal `points` values, exactly the expression
summed inside `analyzeSeo` before clamping. -/
def sumPoints (sig : ExtractedSignals) : Nat :=
  (scoreTitle sig.title).points + (scoreMetaDescription sig.metaDescription).points +
    (scoreMetaKeywords sig.metaKeywords).points + (scoreHeadings sig.headings).points +
    (scoreImages sig.images).points + (scoreCanonical sig.canonical).points +
    (scoreRobots sig.robots).points + (scoreStructuredData sig.jsonld).points +
    (scoreWordCount sig.wordCount).points

/-- `analyzeSeo()` over the already-extracted document signals.  `now` and
`url` stand for the ambient `Date.now()` and `location.href`. -/
def analyzeSeo (now : Nat) (url : String) (sig : ExtractedSignals) : Payload :=
  let title := scoreTitle sig.title
  let metaDescription := scoreMetaDescription sig.metaDescription
  let metaKeywords := scoreMetaKeywords sig.metaKeywords
  let headings := scoreHeadings sig.headings
  let images := scoreImages sig.images
  let canonical := scoreCanonical sig.canonical
  let robots := scoreRobots sig.robots
  let structuredData := scoreStructuredData sig.jsonld
  let wordCount := scoreWordCount sig.wordCount
  let total := clamp
    (title.points + metaDescription.points + metaKeywords.points + headings.points +
      images.points + canonical.points + robots.points + structuredData.points +
      wordCount.points) 0 100
  let c1 := sig.headings.h1
  let c2 := sig.headings.h2
  let c3 := sig.headings.h3
  let c4 := sig.headings.h4
  let c5 := sig.headings.h5
  let c6 := sig.headings.h6
  let headingsDetailed : SignalResult :=
    { headings with
      detail := headings.detail ++ s!" (H1:{c1}, H2:{c2}, H3:{c3}, H4:{c4}, H5:{c5}, H6:{c6})" }
  let items : Items :=
    { title := title, metaDescription := metaDescription, metaKeywords := metaKeywords,
      headings := headingsDetailed, images := images, canonical := canonical,
      robots := robots, structuredData := structuredData, wordCount := wordCount }
  { generatedAt := now, pageUrl := url, score := { total := total }, raw := sig,
    items := items, summary := buildSummary items total }

/-- Refinement form of the "Strong" clause list, following the spec's words:
in the fixed order title, meta description, canonical, structured data,
exactly those of these four whose status is exactly "good". -/
def specStrongList (items : Items) : List String :=
  (if items.title.status = "good" then ["title"] else []) ++
  (if items.metaDescription.status = "good" then ["meta description"] else []) ++
  (if items.canonical.status = "good" then ["canonical"] else []) ++
  (if items.structuredData.status = "good" then ["structured data"] else [])

/-- Refinement form of the "Check" clause list, following the spec's words:
in the fixed order headings, image alts, robots, content length, each signal
whose status is not "good" — except robots, listed only when its status is
"bad". -/
def specCheckList (items : Items) : List String :=
  (if items.headings.status ≠ "good" then ["headings"] else []) ++
  (if items.images.status ≠ "good" then ["image alts"] else []) ++
  (if items.robots.status = "bad" then ["robots (noindex/nofollow)"] else []) ++
  (if items.wordCount.status ≠ "good" then ["content length"] else [])

/-- Refinement form of the summary, following the spec's words: one sentence
reporting the total score, then an optional "Strong" clause and an optional
"Check" clause, each omitted entirely when its list is empty. -/
def specSummary (items : Items) (total : Nat) : String :=
  s!"SEO score: {total}/100." ++
    (if specStrongList items = [] then ""
     else " " ++ ("Strong: " ++ joinSep ", " (specStrongList items) ++ ".")) ++
    (if specCheckList items = [] then ""
     else " " ++ ("Check: " ++ joinSep ", " (specCheckList items) ++ "."))

theorem scoreTitle_points_le (t : String) : (scoreTitle t).points ≤ 20 := by
  simp only [scoreTitle]
  split_ifs <;> simp

theorem scoreMetaDescription_points_le (d : String) : (scoreMetaDescription d).points ≤ 20 := by
  simp only [scoreMetaDescription]
  split_ifs <;> simp

theorem scoreMetaKeywords_points_le (k : String) : (scoreMetaKeywords k).points ≤ 3 := by
  simp only [scoreMetaKeywords]
  split_ifs <;> simp

theorem scoreHeadings_points_le (c : HeadingCounts) : (scoreHeadings c).points ≤ 15 := by
  simp only [scoreHeadings]
  split_ifs <;> simp

theorem scoreImages_points_le (st : ImageStats) : (scoreImages st).points ≤ 10 := by
  simp only [scoreImages]
  split_ifs <;> simp

theorem scoreImages_points_ge (st : ImageStats) : 2 ≤ (scoreImages st).points := by
  simp only [scoreImages]
  split_ifs <;> simp

theorem scoreCanonical_points_le (h : String) : (scoreCanonical h).points ≤ 5 := by
  simp only [scoreCanonical]
  split_ifs <;> simp

theorem scoreRobots_points_le (r : String) : (scoreRobots r).points ≤ 6 := by
  simp only [scoreRobots]
  split_ifs <;> simp

theorem scoreStructuredData_points_le (j : JsonLdStats) : (scoreStructuredData j).points ≤ 10 := by
  simp only [scoreStructuredData]
  split_ifs <;> simp

theorem scoreWordCount_points_le (w : Nat) : (scoreWordCount w).points ≤ 10 := by
  simp only [scoreWordCount]
  split_ifs <;> simp

theorem sumPoints_le_99 (sig : ExtractedSignals) : sumPoints sig ≤ 99 := by
  have h1 := scoreTitle_points_le sig.title
  have h2 := scoreMetaDescription_points_le sig.metaDescription
  have h3 := scoreMetaKeywords_points_le sig.metaKeywords
  have h4 := scoreHeadings_points_le sig.headings
  have h5 := scoreImages_points_le sig.images
  have h6 := scoreCanonical_points_le sig.canonical
  have h7 := scoreRobots_points_le sig.robots
  have h8 := scoreStructuredData_points_le sig.jsonld
  have h9 := scoreWordCount_points_le sig.wordCount
  unfold sumPoints
  omega

theorem two_le_sumPoints (sig : ExtractedSignals) : 2 ≤ sumPoints sig := by
  have h5 := scoreImages_points_ge sig.images
  unfold sumPoints
  omega

theorem clamp_of_le (n hi : Nat) (h : n ≤ hi) : clamp n 0 hi = n := by
  unfold clamp
  omega

theorem analyzeSeo_total_def (now : Nat) (url : String) (sig : ExtractedSignals) :
    (analyzeSeo now url sig).score.total = clamp (sumPoints sig) 0 100 := rfl

theorem jsonLdStep_sum_le (parseOk : String → Bool) (acc : Nat × Nat) (node : String) :
    (jsonLdStep parseOk acc node).1 + (jsonLdStep parseOk acc node).2 ≤ acc.1 + acc.2 + 1 := by
  simp only [jsonLdStep]
  split_ifs <;> omega

theorem jsonLd_foldl_sum_le (parseOk : String → Bool) (nodes : List String) :
    ∀ acc : Nat × Nat,
      (nodes.foldl (jsonLdStep parseOk) acc).1 + (nodes.foldl (jsonLdStep parseOk) acc).2 ≤
        acc.1 + acc.2 + nodes.length := by
  induction nodes with
  | nil => intro acc; simp
  | cons hd tl ih =>
    intro acc
    simp only [List.foldl_cons, List.length_cons]
    have h2 := jsonLdStep_sum_le parseOk acc hd
    have h1 := ih (jsonLdStep parseOk acc hd)
    omega

theorem joinSep_space_parts (x y z : String) (p q : Prop) [Decidable p] [Decidable q] :
    joinSep " " ([x] ++ (if p then [] else [y]) ++ (if q then [] else [z])) =
      x ++ (if p then "" else " " ++ y) ++ (if q then "" else " " ++ z) := by
  split_ifs <;> simp [joinSep, String.append_assoc]

/-- Claim C1: for every extracted-signals input, the aggregator's total equals
the sum of the nine per-signal points values clamped to [0,100]; each scorer
keeps its points within its documented per-signal maximum
(20+20+3+15+10+5+6+10+10 = 99 ≤ 100), so the clamp is a no-op and the total
always lies in [0,100]. -/
theorem analyzeSeo_total_clamped_sum (now : Nat) (url : String) (sig : ExtractedSignals) :
    (analyzeSeo now url sig).score.total = clamp (sumPoints sig) 0 100 ∧
    (scoreTitle sig.title).points ≤ 20 ∧
    (scoreMetaDescription sig.metaDescription).points ≤ 20 ∧
    (scoreMetaKeywords sig.metaKeywords).points ≤ 3 ∧
    (scoreHeadings sig.headings).points ≤ 15 ∧
    (scoreImages sig.images).points ≤ 10 ∧
    (scoreCanonical sig.canonical).points ≤ 5 ∧
    (scoreRobots sig.robots).points ≤ 6 ∧
    (scoreStructuredData sig.jsonld).points ≤ 10 ∧
    (scoreWordCount sig.wordCount).points ≤ 10 ∧
    (analyzeSeo now url sig).score.total = sumPoints sig ∧
    (analyzeSeo now url sig).score.total ≤ 100 := by
  have hle := sumPoints_le_99 sig
  have hnoop : clamp (sumPoints sig) 0 100 = sumPoints sig := clamp_of_le _ _ (by omega)
  refine ⟨analyzeSeo_total_def now url sig,
    scoreTitle_points_le sig.title, scoreMetaDescription_points_le sig.metaDescription,
    scoreMetaKeywords_points_le sig.metaKeywords, scoreHeadings_points_le sig.headings,
    scoreImages_points_le sig.images, scoreCanonical_points_le sig.canonical,
    scoreRobots_points_le sig.robots, scoreStructuredData_points_le sig.jsonld,
    scoreWordCount_points_le sig.wordCount, ?_, ?_⟩
  · rw [analyzeSeo_total_def now url sig, hnoop]
  · rw [analyzeSeo_total_def now url sig, hnoop]
    omega

/-- Claim C2: structured-data scoring — zero blocks gives 0/warn; at least one
block, all parsed successfully, gives 10/good; at least one parsed together
with some parse errors gives 5/warn; in particular {2,2,0} gives 10/good and
{2,1,1} gives 5/warn. -/
theorem scoreStructuredData_spec (s : JsonLdStats)
    (hinv : s.parsedCount + s.parseErrors ≤ s.count) :
    (s.count = 0 →
      (scoreStructuredData s).points = 0 ∧ (scoreStructuredData s).status = "warn") ∧
    (1 ≤ s.count → s.parsedCount = s.count → s.parseErrors = 0 →
      (scoreStructuredData s).points = 10 ∧ (scoreStructuredData s).status = "good") ∧
    (1 ≤ s.parsedCount → 1 ≤ s.parseErrors →
      (scoreStructuredData s).points = 5 ∧ (scoreStructuredData s).status = "warn") ∧
    scoreStructuredData ⟨2, 2, 0⟩ =
      { points := 10, status := "good", badge := "2 blocks",
        detail := "Found 2 JSON-LD script tag(s); 2 parsed successfully." } ∧
    scoreStructuredData ⟨2, 1, 1⟩ =
      { points := 5, status := "warn", badge := "Partial",
        detail := "Found 2 JSON-LD script tag(s); 1 parsed; 1 parse error(s)." } := by
  refine ⟨?_, ?_, ?_, by decide, by decide⟩
  · intro h
    simp [scoreStructuredData, h]
  · intro hc hp he
    simp only [scoreStructuredData]
    rw [if_neg (by omega : ¬s.count = 0),
      if_pos (by omega : 0 < s.parsedCount ∧ s.parseErrors = 0)]
    exact ⟨rfl, rfl⟩
  · intro hp he
    simp only [scoreStructuredData]
    rw [if_neg (by omega : ¬s.count = 0),
      if_neg (by omega : ¬(0 < s.parsedCount ∧ s.parseErrors = 0))]
    exact ⟨rfl, rfl⟩

/-- Witness for scoreStructuredData_spec at the mixed record {2, 1, 1}. -/
theorem scoreStructuredData_spec_witness :
    (scoreStructuredData ⟨2, 1, 1⟩).points = 5 ∧
    (scoreStructuredData ⟨2, 1, 1⟩).status = "warn" :=
  (scoreStructuredData_spec ⟨2, 1, 1⟩ (by decide)).2.2.1 (by decide) (by decide)

/-- Claim C3 (counterexample): a script block whose text is empty after
whitespace normalization is claimed to be "not counted", but `count` is the
number of script nodes, so the single skipped block is counted: `count = 1`,
not 0, while neither `parsedCount` nor `parseErrors` records it. -/
theorem getJsonLdBlocks_empty_still_counted :
    normalizeSpace " " = "" ∧
    (getJsonLdBlocks (fun _ => true) [" "]).count = 1 ∧
    ¬(getJsonLdBlocks (fun _ => true) [" "]).count = 0 ∧
    (getJsonLdBlocks (fun _ => true) [" "]).parsedCount = 0 ∧
    (getJsonLdBlocks (fun _ => true) [" "]).parseErrors = 0 := by decide

/-- Claim C3 (amended): the JSON-LD extractor is total — for every parse
oracle and block list it returns stats with
parsedCount + parseErrors ≤ count; a block whose text is empty after
whitespace normalization is skipped by the parsing loop — neither parsed nor
a parse error — but it is still included in `count`. -/
theorem getJsonLdBlocks_spec (parseOk : String → Bool) (nodes : List String) (s : String)
    (hs : normalizeSpace s = "") :
    (getJsonLdBlocks parseOk nodes).parsedCount + (getJsonLdBlocks parseOk nodes).parseErrors ≤
      (getJsonLdBlocks parseOk nodes).count ∧
    (getJsonLdBlocks parseOk (s :: nodes)).count = (getJsonLdBlocks parseOk nodes).count + 1 ∧
    (getJsonLdBlocks parseOk (s :: nodes)).parsedCount =
      (getJsonLdBlocks parseOk nodes).parsedCount ∧
    (getJsonLdBlocks parseOk (s :: nodes)).parseErrors =
      (getJsonLdBlocks parseOk nodes).parseErrors := by
  have hstep : jsonLdStep parseOk (0, 0) s = (0, 0) := by
    simp [jsonLdStep, hs]
  have hfold := jsonLd_foldl_sum_le parseOk nodes (0, 0)
  refine ⟨?_, ?_, ?_, ?_⟩
  · simpa [getJsonLdBlocks] using hfold
  · simp [getJsonLdBlocks]
  · simp only [getJsonLdBlocks, List.foldl_cons, hstep]
  · simp only [getJsonLdBlocks, List.foldl_cons, hstep]

/-- Witness for getJsonLdBlocks_spec: a skipped whitespace-only block next to
one parsed block. -/
theorem getJsonLdBlocks_spec_witness :
    ((getJsonLdBlocks (fun _ => true) ["x"]).parsedCount +
        (getJsonLdBlocks (fun _ => true) ["x"]).parseErrors ≤
      (getJsonLdBlocks (fun _ => true) ["x"]).count) ∧
    (getJsonLdBlocks (fun _ => true) (" " :: ["x"])).count =
      (getJsonLdBlocks (fun _ => true) ["x"]).count + 1 ∧
    (getJsonLdBlocks (fun _ => true) (" " :: ["x"])).parsedCount =
      (getJsonLdBlocks (fun _ => true) ["x"]).parsedCount :=
  ⟨(getJsonLdBlocks_spec (fun _ => true) ["x"] " " (by decide)).1,
    (getJsonLdBlocks_spec (fun _ => true) ["x"] " " (by decide)).2.1,
    (getJsonLdBlocks_spec (fun _ => true) ["x"] " " (by decide)).2.2.1⟩

/-- Claim C4: image scoring — total = 0 gives 6/warn; otherwise alt-coverage
ratio ≥ 0.9 gives 10/good, ratio ≥ 0.6 gives 6/warn, else 2/bad, with
non-strict ≥ at the boundaries; {total 10, withAlt 9} gives 10/good with
badge "90%". -/
theorem scoreImages_spec (st : ImageStats) (halt : st.withAlt ≤ st.total) :
    (st.total = 0 → (scoreImages st).points = 6 ∧ (scoreImages st).status = "warn") ∧
    (0 < st.total → (9 : ℚ) / 10 ≤ (st.withAlt : ℚ) / (st.total : ℚ) →
      (scoreImages st).points = 10 ∧ (scoreImages st).status = "good") ∧
    (0 < st.total → (st.withAlt : ℚ) / (st.total : ℚ) < (9 : ℚ) / 10 →
      (6 : ℚ) / 10 ≤ (st.withAlt : ℚ) / (st.total : ℚ) →
      (scoreImages st).points = 6 ∧ (scoreImages st).status = "warn") ∧
    (0 < st.total → (st.withAlt : ℚ) / (st.total : ℚ) < (6 : ℚ) / 10 →
      (scoreImages st).points = 2 ∧ (scoreImages st).status = "bad") ∧
    (scoreImages ⟨10, 9, 1⟩).points = 10 ∧ (scoreImages ⟨10, 9, 1⟩).status = "good" ∧
    (scoreImages ⟨10, 9, 1⟩).badge = "90%" := by
  refine ⟨?_, ?_, ?_, ?_, by decide, by decide, by decide⟩
  · intro h0
    simp [scoreImages, h0]
  · intro h0 hr
    have h0Q : (0 : ℚ) < (st.total : ℚ) := by exact_mod_cast h0
    rw [div_le_div_iff₀ (by norm_num) h0Q] at hr
    have hr' : 9 * st.total ≤ st.withAlt * 10 := by exact_mod_cast hr
    simp only [scoreImages]
    split_ifs <;> first | exact ⟨rfl, rfl⟩ | (exfalso; omega)
  · intro h0 hr1 hr2
    have h0Q : (0 : ℚ) < (st.total : ℚ) := by exact_mod_cast h0
    rw [div_lt_div_iff₀ h0Q (by norm_num)] at hr1
    rw [div_le_div_iff₀ (by norm_num) h0Q] at hr2
    have hr1' : st.withAlt * 10 < 9 * st.total := by exact_mod_cast hr1
    have hr2' : 6 * st.total ≤ st.withAlt * 10 := by exact_mod_cast hr2
    simp only [scoreImages]
    split_ifs <;> first | exact ⟨rfl, rfl⟩ | (exfalso; omega)
  · intro h0 hr
    have h0Q : (0 : ℚ) < (st.total : ℚ) := by exact_mod_cast h0
    rw [div_lt_div_iff₀ h0Q (by norm_num)] at hr
    have hr' : st.withAlt * 10 < 6 * st.total := by exact_mod_cast hr
    simp only [scoreImages]
    split_ifs <;> first | exact ⟨rfl, rfl⟩ | (exfalso; omega)

/-- Witness for scoreImages_spec at {total 10, withAlt 9}: exact boundary
ratio 0.9 falls into the good band. -/
theorem scoreImages_spec_witness :
    (scoreImages ⟨10, 9, 1⟩).points = 10 ∧ (scoreImages ⟨10, 9, 1⟩).status = "good" :=
  (scoreImages_spec ⟨10, 9, 1⟩ (by decide)).2.1 (by decide) (by simp)

/-- Claim C5: title scoring — empty gives 0/bad with badge "Missing"; length
in [10,60] gives 20/good; otherwise 12/warn. -/
theorem scoreTitle_spec (t : String) :
    (t = "" → (scoreTitle t).points = 0 ∧ (scoreTitle t).status = "bad" ∧
      (scoreTitle t).badge = "Missing") ∧
    (t ≠ "" → 10 ≤ t.length → t.length ≤ 60 →
      (scoreTitle t).points = 20 ∧ (scoreTitle t).status = "good") ∧
    (t ≠ "" → (t.length < 10 ∨ 60 < t.length) →
      (scoreTitle t).points = 12 ∧ (scoreTitle t).status = "warn") := by
  refine ⟨?_, ?_, ?_⟩
  · intro h
    simp [scoreTitle, h]
  · intro h h1 h2
    simp only [scoreTitle]
    rw [if_neg h, if_pos ⟨h1, h2⟩]
    exact ⟨rfl, rfl⟩
  · intro h hout
    simp only [scoreTitle]
    rw [if_neg h, if_neg (by omega : ¬(10 ≤ t.length ∧ t.length ≤ 60))]
    exact ⟨rfl, rfl⟩

/-- Witness for scoreTitle_spec at the empty title and a 35-character title. -/
theorem scoreTitle_spec_witness :
    ((scoreTitle "").points = 0 ∧ (scoreTitle "").status = "bad" ∧
      (scoreTitle "").badge = "Missing") ∧
    (scoreTitle "abcdefghijklmnopqrstuvwxyzabcdefghi").points = 20 ∧
    (scoreTitle "abcdefghijklmnopqrstuvwxyzabcdefghi").status = "good" :=
  ⟨(scoreTitle_spec "").1 rfl,
    (scoreTitle_spec "abcdefghijklmnopqrstuvwxyzabcdefghi").2.1 (by decide) (by decide) (by decide)⟩

/-- Claim C6: headings scoring — no headings at all gives 0/bad; exactly one
H1 gives 15/good with badge "H1×1"; zero H1 with headings present gives
7/warn with badge "No H1"; two or more H1 gives 7/warn. -/
theorem scoreHeadings_spec (c : HeadingCounts) :
    (headingsTotal c = 0 →
      (scoreHeadings c).points = 0 ∧ (scoreHeadings c).status = "bad") ∧
    (c.h1 = 1 → (scoreHeadings c).points = 15 ∧ (scoreHeadings c).status = "good" ∧
      (scoreHeadings c).badge = "H1×1") ∧
    (c.h1 = 0 → headingsTotal c ≠ 0 → (scoreHeadings c).points = 7 ∧
      (scoreHeadings c).status = "warn" ∧ (scoreHeadings c).badge = "No H1") ∧
    (2 ≤ c.h1 → (scoreHeadings c).points = 7 ∧ (scoreHeadings c).status = "warn") := by
  refine ⟨?_, ?_, ?_, ?_⟩
  · intro h
    simp [scoreHeadings, h]
  · intro h
    have ht : ¬headingsTotal c = 0 := by unfold headingsTotal; omega
    simp only [scoreHeadings]
    rw [if_neg ht, if_pos h]
    refine ⟨rfl, rfl, ?_⟩
    show s!"H1×{c.h1}" = "H1×1"
    rw [h]
    decide
  · intro h h2
    simp only [scoreHeadings]
    rw [if_neg h2, if_neg (by omega : ¬c.h1 = 1), if_pos h]
    exact ⟨rfl, rfl, rfl⟩
  · intro h
    have ht : ¬headingsTotal c = 0 := by unfold headingsTotal; omega
    simp only [scoreHeadings]
    rw [if_neg ht, if_neg (by omega : ¬c.h1 = 1), if_neg (by omega : ¬c.h1 = 0)]
    exact ⟨rfl, rfl⟩

/-- Witness for scoreHeadings_spec at {h1 1, h2 3, others 0}. -/
theorem scoreHeadings_spec_witness :
    (scoreHeadings ⟨1, 3, 0, 0, 0, 0⟩).points = 15 ∧
    (scoreHeadings ⟨1, 3, 0, 0, 0, 0⟩).status = "good" ∧
    (scoreHeadings ⟨1, 3, 0, 0, 0, 0⟩).badge = "H1×1" :=
  (scoreHeadings_spec ⟨1, 3, 0, 0, 0, 0⟩).2.1 rfl

/-- Claim C7: robots scoring — absent gives 6/good; a present value
containing "noindex" or "nofollow" as a case-insensitive substring gives
0/bad (e.g. "noindex, follow"); any other present value gives 6/good. -/
theorem scoreRobots_spec (r : String) :
    (r = "" → (scoreRobots r).points = 6 ∧ (scoreRobots r).status = "good") ∧
    (r ≠ "" →
      ("noindex".toList <:+: (strToLower r).toList ∨
        "nofollow".toList <:+: (strToLower r).toList) →
      (scoreRobots r).points = 0 ∧ (scoreRobots r).status = "bad") ∧
    (r ≠ "" →
      ¬("noindex".toList <:+: (strToLower r).toList ∨
        "nofollow".toList <:+: (strToLower r).toList) →
      (scoreRobots r).points = 6 ∧ (scoreRobots r).status = "good") ∧
    (scoreRobots "noindex, follow").points = 0 ∧
    (scoreRobots "noindex, follow").status = "bad" := by
  refine ⟨?_, ?_, ?_, by decide, by decide⟩
  · intro h
    simp [scoreRobots, h]
  · intro h hin
    have hb : (strIncludes (strToLower r) "noindex" ||
        strIncludes (strToLower r) "nofollow") = true := by
      simp only [strIncludes, Bool.or_eq_true, decide_eq_true_eq]
      exact hin
    simp only [scoreRobots]
    rw [if_neg h, if_pos hb]
    exact ⟨rfl, rfl⟩
  · intro h hin
    have hb : ¬(strIncludes (strToLower r) "noindex" ||
        strIncludes (strToLower r) "nofollow") = true := by
      simp only [strIncludes, Bool.or_eq_true, decide_eq_true_eq]
      exact hin
    simp only [scoreRobots]
    rw [if_neg h, if_neg hb]
    exact ⟨rfl, rfl⟩

/-- Witness for scoreRobots_spec at "noindex, follow". -/
theorem scoreRobots_spec_witness :
    (scoreRobots "noindex, follow").points = 0 ∧
    (scoreRobots "noindex, follow").status = "bad" :=
  (scoreRobots_spec "noindex, follow").2.1 (by decide) (Or.inl (by decide))

/-- Claim C8: the summary is one sentence reporting the total score followed
by at most two optional clauses — a "Strong" clause listing, in fixed order,
those of title, meta description, canonical, structured data whose status is
good, and a "Check" clause listing, in fixed order, headings, image alts,
robots (only when bad), content length when not good; an empty clause is
omitted entirely.  Checked against the spec's concrete scenario. -/
theorem buildSummary_spec (items : Items) (total : Nat) :
    buildSummary items total = specSummary items total ∧
    buildSummary
      { title := ⟨20, "good", "", ""⟩, metaDescription := ⟨20, "good", "", ""⟩,
        metaKeywords := ⟨0, "warn", "", ""⟩, headings := ⟨7, "warn", "", ""⟩,
        images := ⟨6, "warn", "", ""⟩, canonical := ⟨5, "good", "", ""⟩,
        robots := ⟨6, "good", "", ""⟩, structuredData := ⟨10, "good", "", ""⟩,
        wordCount := ⟨6, "warn", "", ""⟩ } 76 =
      "SEO score: 76/100. Strong: title, meta description, canonical, structured data. Check: headings, image alts, content length." := by
  constructor
  · simp only [buildSummary, specSummary, specStrongList, specCheckList, pushIfGood]
    exact joinSep_space_parts _ _ _ _ _
  · decide

/-- Claim C9: canonical scoring — absent gives 0/warn; an href starting with
"http://" or "https://" (case-insensitive) or with "/" gives 5/good; any
other non-empty href (e.g. "ftp://example.com") gives 3/warn. -/
theorem scoreCanonical_spec (href : String) :
    (href = "" → (scoreCanonical href).points = 0 ∧ (scoreCanonical href).status = "warn") ∧
    (href ≠ "" →
      ("http://".toList <+: (strToLower href).toList ∨
        "https://".toList <+: (strToLower href).toList ∨ "/".toList <+: href.toList) →
      (scoreCanonical href).points = 5 ∧ (scoreCanonical href).status = "good") ∧
    (href ≠ "" →
      ¬("http://".toList <+: (strToLower href).toList ∨
        "https://".toList <+: (strToLower href).toList ∨ "/".toList <+: href.toList) →
      (scoreCanonical href).points = 3 ∧ (scoreCanonical href).status = "warn") ∧
    (scoreCanonical "ftp://example.com").points = 3 ∧
    (scoreCanonical "ftp://example.com").status = "warn" := by
  refine ⟨?_, ?_, ?_, by decide, by decide⟩
  · intro h
    simp [scoreCanonical, h]
  · intro h hin
    have hb : (strStartsWith (strToLower href) "http://" ||
        strStartsWith (strToLower href) "https://" || strStartsWith href "/") = true := by
      simp only [strStartsWith, Bool.or_eq_true, decide_eq_true_eq]
      tauto
    simp only [scoreCanonical]
    rw [if_neg h, hb]
    exact ⟨rfl, rfl⟩
  · intro h hin
    have hb : (strStartsWith (strToLower href) "http://" ||
        strStartsWith (strToLower href) "https://" || strStartsWith href "/") = false := by
      simp only [strStartsWith, Bool.or_eq_false_iff, decide_eq_false_iff_not]
      tauto
    simp only [scoreCanonical]
    rw [if_neg h, hb]
    exact ⟨rfl, rfl⟩

/-- Witness for scoreCanonical_spec at "ftp://example.com" and "/about". -/
theorem scoreCanonical_spec_witness :
    ((scoreCanonical "ftp://example.com").points = 3 ∧
      (scoreCanonical "ftp://example.com").status = "warn") ∧
    (scoreCanonical "/about").points = 5 ∧ (scoreCanonical "/about").status = "good" :=
  ⟨(scoreCanonical_spec "ftp://example.com").2.2.1 (by decide) (by decide),
    (scoreCanonical_spec "/about").2.1 (by decide) (Or.inr (Or.inr (by decide)))⟩

/-- Claim C10: the images scorer always awards at least 2 points, so the
aggregated total is always at least 2; with the per-signal maxima summing to
99 every reported total lies in [2, 99] — 0, 1 and 100 are unreachable. -/
theorem analyzeSeo_total_range (now : Nat) (url : String) (sig : ExtractedSignals) :
    2 ≤ (scoreImages sig.images).points ∧
    2 ≤ (analyzeSeo now url sig).score.total ∧
    (analyzeSeo now url sig).score.total ≤ 99 ∧
    (analyzeSeo now url sig).score.total ≠ 0 ∧
    (analyzeSeo now url sig).score.total ≠ 1 ∧
    (analyzeSeo now url sig).score.total ≠ 100 := by
  have h99 := sumPoints_le_99 sig
  have h2 := two_le_sumPoints sig
  have hnoop : clamp (sumPoints sig) 0 100 = sumPoints sig := clamp_of_le _ _ (by omega)
  refine ⟨scoreImages_points_ge sig.images, ?_, ?_, ?_, ?_, ?_⟩ <;>
    rw [analyzeSeo_total_def now url sig, hnoop] <;> omega

end SeoAnalyzer
